import Mathlib

/-!
# Verification of the desktop window manager (`src/scripts/desktop-manager.ts`)

A shallow embedding of the window manager's state and operations is defined
below, translated directly from the TypeScript source.  The module-level
mutable state (`highestZ`, `openWindows`, `windowPositions`) together with
the DOM elements the code reads and writes (window panels, folder icons,
the taskbar container) are packed into one explicit state record `Desk`;
every handler becomes a pure function `Desk → Desk`.

JS `Map`s are modelled as insertion-ordered association lists (`Map.set`
overwrites in place, `Map.delete` removes the entry, iteration follows
insertion order).  JS numbers on the geometry paths are modelled as `ℚ`:
every arithmetic operation the code performs on them (`+`, `-`, `* 30`,
`/ 2`, `min`, `max`) is exact on the doubles that actually arise, so `ℚ`
is a faithful abstraction.  A CSS style property that may be unset (the
empty string, which is falsy under `||`) is an `Option`.
-/

/-- `Map.get` on an insertion-ordered association list (first match, as
`document.querySelector` / `Map.get` with unique keys). -/
def getA {α : Type} (k : String) : List (String × α) → Option α
  | [] => none
  | (k', v) :: rest => if k' = k then some v else getA k rest

/-- `Map.set`: overwrite in place if the key exists, append otherwise. -/
def setA {α : Type} (k : String) (v : α) : List (String × α) → List (String × α)
  | [] => [(k, v)]
  | (k', v') :: rest => if k' = k then (k', v) :: rest else (k', v') :: setA k v rest

/-- `Map.delete`: remove the entry for the key, keeping order. -/
def delA {α : Type} (k : String) : List (String × α) → List (String × α)
  | [] => []
  | (k', v) :: rest => if k' = k then rest else (k', v) :: delA k rest

/-- In-place update of the value at a key (mutating a looked-up DOM element
or `Map` value object mutates it where it sits). -/
def mapAt {α : Type} (k : String) (f : α → α) : List (String × α) → List (String × α)
  | [] => []
  | (k', v) :: rest => if k' = k then (k', f v) :: rest else (k', v) :: mapAt k f rest

/-- A saved geometry record, one entry of `windowPositions`.
`x`/`y` come from `offsetLeft`/`offsetTop` (numbers); `w`/`h` come from
`style.width`/`style.height` (strings, possibly empty — `none` models `''`). -/
structure SavedGeom where
  x : ℚ
  y : ℚ
  w : Option ℚ
  h : Option ℚ
  deriving DecidableEq, Repr

/-- A `.desktop-window` panel element: the style properties and CSS classes
the manager reads and writes, plus the layout quantities the DOM reports
(`intrinsicW`/`intrinsicH` are the rendered size when no inline style width
or height is set; `baseLeft`/`baseTop` the rendered offsets when no inline
`left`/`top` is set). -/
structure Win where
  display : String
  left : Option ℚ
  top : Option ℚ
  width : Option ℚ
  height : Option ℚ
  zIndex : Option Nat
  active : Bool
  maximized : Bool
  title : Option String
  intrinsicW : ℚ
  intrinsicH : ℚ
  baseLeft : ℚ
  baseTop : ℚ
  deriving DecidableEq, Repr

/-- A `.desktop-folder` icon element (the fields the manager touches). -/
structure Folder where
  left : Option ℚ
  top : Option ℚ
  icon : Option String
  selected : Bool
  deriving DecidableEq, Repr

/-- One rendered taskbar button.  `active` records whether the built
`className` carries the `active` flag (`'taskbar-item' + (state.minimized ?
'' : ' active')`); `icon ++ title` is the button's text content. -/
structure TItem where
  id : String
  icon : String
  title : String
  active : Bool
  deriving DecidableEq, Repr

/-- The whole mutable world of the script: the three module variables, the
panel/folder elements keyed by `data-window-id` / `data-folder-id`, the
taskbar container (`none` when `getElementById` fails) and the viewport. -/
structure Desk where
  highestZ : Nat
  openWindows : List (String × Bool)
  windowPositions : List (String × SavedGeom)
  windows : List (String × Win)
  folders : List (String × Folder)
  taskbar : Option (List TItem)
  viewportW : ℚ
  viewportH : ℚ
  deriving DecidableEq, Repr

/-- `el.offsetWidth`: 0 for a hidden element, else the inline style width
when set, else the rendered intrinsic width. -/
def offsetWidth (w : Win) : ℚ :=
  if w.display = "flex" then w.width.getD w.intrinsicW else 0

/-- `el.offsetHeight`, analogous to `offsetWidth`. -/
def offsetHeight (w : Win) : ℚ :=
  if w.display = "flex" then w.height.getD w.intrinsicH else 0

/-- `el.offsetLeft`: 0 for a hidden or maximized panel (the `maximized`
class pins the panel), else the inline style `left` when set, else the
rendered base offset. -/
def offsetLeft (w : Win) : ℚ :=
  if w.display = "flex" then (if w.maximized then 0 else w.left.getD w.baseLeft) else 0

/-- `el.offsetTop`, analogous to `offsetLeft`. -/
def offsetTop (w : Win) : ℚ :=
  if w.display = "flex" then (if w.maximized then 0 else w.top.getD w.baseTop) else 0

/-- JS `a || b` on numbers (`0` is falsy). -/
def orQ (a b : ℚ) : ℚ := if a = 0 then b else a

/-- JS `a || b` where `a` is a possibly-missing, possibly-empty string
(`null`/`undefined` and `''` are falsy). -/
def orS (a : Option String) (b : String) : String :=
  match a with
  | none => b
  | some t => if t = "" then b else t

/-- `String.prototype.includes` over explicit character lists. -/
def listIncludes (needle : List Char) : List Char → Bool
  | [] => needle.isEmpty
  | c :: rest => (needle.isPrefixOf (c :: rest)) || listIncludes needle rest

/-- `s.includes(sub)`. -/
def strIncludes (s sub : String) : Bool := listIncludes sub.data s.data

/-- `isMobile()`: `window.innerWidth <= 640`. -/
def isMobile (s : Desk) : Bool := decide (s.viewportW ≤ 640)

/-- `clamp(val, min, max) = Math.max(min, Math.min(max, val))`. -/
def clamp (val lo hi : ℚ) : ℚ := max lo (min hi val)

/-- `getDesktopBounds()`: full viewport width, viewport height minus the
48px taskbar. -/
structure Bounds where
  width : ℚ
  height : ℚ
  deriving DecidableEq, Repr

def getDesktopBounds (s : Desk) : Bounds :=
  { width := s.viewportW, height := s.viewportH - 48 }

/-- Write through to a window panel element (mutating the element found by
`querySelector` for `id`). -/
def updWin (s : Desk) (id : String) (f : Win → Win) : Desk :=
  { s with windows := mapAt id f s.windows }

/-- Write through to a folder icon element. -/
def updFolder (s : Desk) (id : String) (f : Folder → Folder) : Desk :=
  { s with folders := mapAt id f s.folders }

/-- `updateTaskbar()`: if the `taskbar-items` container exists, rebuild its
children from `openWindows` in insertion order; an entry whose panel
element is missing contributes no button.  A button's class string is
`'taskbar-item' + (state.minimized ? '' : ' active')`, its icon comes from
the folder's `.folder-icon` text (default `'📄'`), its title from the
panel's `.window-title` text (default the window id). -/
def updateTaskbar (s : Desk) : Desk :=
  match s.taskbar with
  | none => s
  | some _ =>
    let items := s.openWindows.filterMap fun p =>
      match getA p.1 s.windows with
      | none => none
      | some w =>
        some { id := p.1
               icon := orS ((getA p.1 s.folders).bind Folder.icon) "📄"
               title := orS w.title p.1
               active := ¬ p.2 }
    { s with taskbar := some items }

/-- `updateTaskbarActiveState(activeId)`: strip `active` from every taskbar
item, re-add it to the items whose text content contains `activeId`, and
then — `// Simpler: rebuild` — rebuild the whole taskbar, which discards
the items just retagged. -/
def updateTaskbarActiveState (s : Desk) (activeId : String) : Desk :=
  let s1 :=
    match s.taskbar with
    | none => s
    | some items =>
      let retagged := items.map fun it =>
        { it with active := strIncludes (it.icon ++ it.title) activeId }
      { s with taskbar := some retagged }
  updateTaskbar s1

/-- `bringToFront(windowEl)`: bump `highestZ`, give the panel the new
z-index, strip `active` from every `.desktop-window`, mark this one active
and refresh the taskbar active state.  Callers always pass an element they
have just looked up, so the key is present in every reachable call. -/
def bringToFront (s : Desk) (id : String) : Desk :=
  let z := s.highestZ + 1
  let ws := s.windows.map fun p => (p.1, { p.2 with active := false })
  let ws := mapAt id (fun w => { w with zIndex := some z, active := true }) ws
  updateTaskbarActiveState { s with highestZ := z, windows := ws } id

/-- `openWindow(windowId)` — translated branch for branch from the source:
missing panel aborts; a minimized record restores; an already-`flex` panel
only refocuses; otherwise, on a non-mobile viewport, position from
`windowPositions` if saved, else from the cascade formula, then show,
register `{minimized:false}`, focus, refresh taskbar. -/
def openWindow (s : Desk) (id : String) : Desk :=
  match getA id s.windows with
  | none => s
  | some w =>
    match getA id s.openWindows with
    | some true =>
      let s := updWin s id fun w' => { w' with display := "flex" }
      let s := { s with openWindows := setA id false s.openWindows }
      let s := bringToFront s id
      updateTaskbar s
    | _ =>
      if w.display = "flex" then
        bringToFront s id
      else
        let s1 :=
          if isMobile s then s
          else
            match getA id s.windowPositions with
            | some saved =>
              updWin s id fun w' => { w' with left := some saved.x, top := some saved.y }
            | none =>
              let bounds := getDesktopBounds s
              let wWidth := orQ (offsetWidth w) 600
              let wHeight := orQ (offsetHeight w) 450
              let x := max 40 ((bounds.width - wWidth) / 2 + (s.openWindows.length : ℚ) * 30)
              let y := max 20 ((bounds.height - wHeight) / 2 + (s.openWindows.length : ℚ) * 30)
              updWin s id fun w' => { w' with left := some x, top := some y }
        let s2 := updWin s1 id fun w' => { w' with display := "flex" }
        let s3 := { s2 with openWindows := setA id false s2.openWindows }
        let s4 := bringToFront s3 id
        updateTaskbar s4

/-- `closeWindow(windowId)`: hide the panel, drop its `maximized` class,
delete the registry record, refresh the taskbar.  `windowPositions` is
untouched. -/
def closeWindow (s : Desk) (id : String) : Desk :=
  match getA id s.windows with
  | none => s
  | some _ =>
    let s := updWin s id fun w' => { w' with display := "none", maximized := false }
    let s := { s with openWindows := delA id s.openWindows }
    updateTaskbar s

/-- `minimizeWindow(windowId)`: hide the panel; set the record's
`minimized` flag, creating the record when missing; refresh the taskbar. -/
def minimizeWindow (s : Desk) (id : String) : Desk :=
  match getA id s.windows with
  | none => s
  | some _ =>
    let s := updWin s id fun w' => { w' with display := "none" }
    let s := { s with openWindows := setA id true s.openWindows }
    updateTaskbar s

/-- `toggleMaximize(windowId)`: if maximized, drop the class and reapply
the saved geometry when one exists; otherwise save the current geometry
(`style.width || offsetWidth + 'px'` collapses an unset style to the
rendered width) into `windowPositions` and add the class. -/
def toggleMaximize (s : Desk) (id : String) : Desk :=
  match getA id s.windows with
  | none => s
  | some w =>
    if w.maximized then
      let s := updWin s id fun w' => { w' with maximized := false }
      match getA id s.windowPositions with
      | some saved =>
        updWin s id fun w' =>
          { w' with left := some saved.x, top := some saved.y,
                    width := saved.w, height := saved.h }
      | none => s
    else
      let g : SavedGeom :=
        { x := offsetLeft w
          y := offsetTop w
          w := some (w.width.getD (offsetWidth w))
          h := some (w.height.getD (offsetHeight w)) }
      let s := { s with windowPositions := setA id g s.windowPositions }
      updWin s id fun w' => { w' with maximized := true }

/-- One `pointermove` step of an active window-drag session (from
`initWindowDrag`): apply the clamped candidate position computed from the
session origin and the current pointer delta. -/
def onWindowDragMove (s : Desk) (id : String) (origX origY dx dy : ℚ) : Desk :=
  match getA id s.windows with
  | none => s
  | some w =>
    let bounds := getDesktopBounds s
    updWin s id fun w' =>
      { w' with
          left := some (clamp (origX + dx) (-(offsetWidth w) + 100) (bounds.width - 50))
          top := some (clamp (origY + dy) 0 (bounds.height - 40)) }

/-- The `pointerup` of an active window-drag session: commit the final
on-screen geometry into `windowPositions`. -/
def windowDragCommit (s : Desk) (id : String) : Desk :=
  match getA id s.windows with
  | none => s
  | some w =>
    let g : SavedGeom := { x := offsetLeft w, y := offsetTop w, w := w.width, h := w.height }
    { s with windowPositions := setA id g s.windowPositions }

/-- One `pointermove` step of an active folder-drag session (from
`initFolderDrag`): clamp the icon into the desktop bounds minus the 80px
icon size. -/
def onFolderDragMove (s : Desk) (id : String) (origX origY dx dy : ℚ) : Desk :=
  match getA id s.folders with
  | none => s
  | some _ =>
    let bounds := getDesktopBounds s
    updFolder s id fun f =>
      { f with
          left := some (clamp (origX + dx) 0 (bounds.width - 80))
          top := some (clamp (origY + dy) 0 (bounds.height - 80)) }

/-- One `pointermove` step of an active resize session (from
`initWindowResize`): width floored at 320, height floored at 200. -/
def onWindowResizeMove (s : Desk) (id : String) (startW startH dx dy : ℚ) : Desk :=
  match getA id s.windows with
  | none => s
  | some _ =>
    updWin s id fun w' =>
      { w' with
          width := some (max 320 (startW + dx))
          height := some (max 200 (startH + dy)) }

/-- Registry observer: a window is open iff a record exists, minimized or
not (`openWindows.has`). -/
def isOpen (s : Desk) (id : String) : Bool := (getA id s.openWindows).isSome

/-- Observer: the inline `left` of a window panel, when the panel exists. -/
def winLeft (s : Desk) (id : String) : Option (Option ℚ) :=
  (getA id s.windows).map Win.left

/-- Observer: the inline `top` of a window panel. -/
def winTop (s : Desk) (id : String) : Option (Option ℚ) :=
  (getA id s.windows).map Win.top

/-- The geometry `toggleMaximize` captures before applying the `maximized`
class: `offsetLeft`/`offsetTop` plus `style.width || offsetWidth + 'px'`
and `style.height || offsetHeight + 'px'`. -/
def maximizeSave (w : Win) : SavedGeom :=
  { x := offsetLeft w, y := offsetTop w,
    w := some (w.width.getD (offsetWidth w)),
    h := some (w.height.getD (offsetHeight w)) }

/-- The z-index values assigned by a sequence of `bringToFront` calls, in
call order (`highestZ++` makes each call assign the fresh value
`highestZ + 1`). -/
def zTrace (s : Desk) : List String → List Nat
  | [] => []
  | id :: rest => (bringToFront s id).highestZ :: zTrace (bringToFront s id) rest

/-- Invariant: every panel element carrying the `maximized` class has a
saved geometry record, so the restore branch of `toggleMaximize` always
finds one. -/
abbrev MaxInv (s : Desk) : Prop :=
  ∀ p ∈ s.windows, p.2.maximized = true → (getA p.1 s.windowPositions).isSome = true

/-- A panel element that has never been shown: hidden, no inline styles,
rendered at 600×450 when shown without explicit size. -/
def closedWin : Win :=
  { display := "none", left := none, top := none, width := none, height := none,
    zIndex := none, active := false, maximized := false, title := none,
    intrinsicW := 600, intrinsicH := 450, baseLeft := 0, baseTop := 0 }

/-- A visible, non-maximized panel with explicit position and width. -/
def visWin : Win :=
  { display := "flex", left := some 50, top := some 60, width := some 400, height := none,
    zIndex := some 101, active := true, maximized := false, title := none,
    intrinsicW := 600, intrinsicH := 450, baseLeft := 0, baseTop := 0 }

/-- A fresh desktop: three never-opened windows `A`, `B`, `C`, an empty
taskbar container, a 1024×768 viewport, `highestZ` at its initial 100. -/
def desk0 : Desk :=
  { highestZ := 100, openWindows := [], windowPositions := [],
    windows := [("A", closedWin), ("B", closedWin), ("C", closedWin)],
    folders := [], taskbar := some [], viewportW := 1024, viewportH := 768 }

/-- The C1 scenario: open `A`, `B`, `C` in order, then `bringToFront(B)`. -/
def c1Final : Desk :=
  bringToFront (openWindow (openWindow (openWindow desk0 "A") "B") "C") "B"

/-- A desktop with one visible window `A`, open in the registry. -/
def desk4 : Desk :=
  { highestZ := 101, openWindows := [("A", false)], windowPositions := [],
    windows := [("A", visWin)], folders := [("A", ⟨some 10, some 10, some "🗀", false⟩)],
    taskbar := some [⟨"A", "🗀", "A", true⟩], viewportW := 1024, viewportH := 768 }

/-- `desk4` squeezed into a degenerate viewport: wide enough that a drag
session can start (`isMobile` is false at width 700) but with height 0. -/
def deskFlat : Desk :=
  { desk4 with viewportW := 700, viewportH := 0 }

/-- A geometry as committed by an earlier window-drag session. -/
def savedG : SavedGeom := { x := 300, y := 200, w := some 500, h := some 400 }

/-- A desktop whose window `A` is closed but has a drag-committed saved
geometry on record. -/
def desk2 : Desk :=
  { highestZ := 100, openWindows := [], windowPositions := [("A", savedG)],
    windows := [("A", closedWin)], folders := [], taskbar := some [],
    viewportW := 1024, viewportH := 768 }

/-- `visWin` carrying the `maximized` class. -/
def maxWin : Win :=
  { visWin with maximized := true }

/-- A desktop whose window `A` is maximized, with the pre-maximize geometry
on record — the shape `toggleMaximize` leaves behind. -/
def deskMax : Desk :=
  { desk4 with windows := [("A", maxWin)], windowPositions := [("A", savedG)] }

/-! ## Association-list lemmas -/

theorem getA_setA_self {α : Type} (k : String) (v : α) (l : List (String × α)) :
    getA k (setA k v l) = some v := by
  induction l with
  | nil => simp [getA, setA]
  | cons hd tl ih =>
    obtain ⟨a, b⟩ := hd
    by_cases h : a = k <;> simp [getA, setA, h, ih]

theorem getA_setA_ne {α : Type} {k k' : String} (h : k' ≠ k) (v : α) (l : List (String × α)) :
    getA k (setA k' v l) = getA k l := by
  induction l with
  | nil => simp [getA, setA, h]
  | cons hd tl ih =>
    obtain ⟨a, b⟩ := hd
    by_cases ha : a = k' <;> by_cases hk : a = k <;>
      simp_all [getA, setA]

theorem getA_mapAt_self {α : Type} (k : String) (f : α → α) (l : List (String × α)) :
    getA k (mapAt k f l) = (getA k l).map f := by
  induction l with
  | nil => simp [getA, mapAt]
  | cons hd tl ih =>
    obtain ⟨a, b⟩ := hd
    by_cases h : a = k <;> simp [getA, mapAt, h, ih]

theorem getA_mapAt_ne {α : Type} {k k' : String} (h : k' ≠ k) (f : α → α)
    (l : List (String × α)) :
    getA k (mapAt k' f l) = getA k l := by
  induction l with
  | nil => simp [getA, mapAt]
  | cons hd tl ih =>
    obtain ⟨a, b⟩ := hd
    by_cases ha : a = k' <;> by_cases hk : a = k <;>
      simp_all [getA, mapAt]

theorem getA_map_snd {α : Type} (k : String) (f : α → α) (l : List (String × α)) :
    getA k (l.map fun p => (p.1, f p.2)) = (getA k l).map f := by
  induction l with
  | nil => simp [getA]
  | cons hd tl ih =>
    obtain ⟨a, b⟩ := hd
    by_cases h : a = k <;> simp [getA, h, ih]

theorem getA_eq_none_of_not_mem {α : Type} {k : String} {l : List (String × α)}
    (h : k ∉ l.map Prod.fst) : getA k l = none := by
  induction l with
  | nil => simp [getA]
  | cons hd tl ih =>
    obtain ⟨a, b⟩ := hd
    simp only [List.map_cons, List.mem_cons] at h
    push_neg at h
    have hak : ¬ a = k := fun hh => h.1 hh.symm
    simp [getA, hak, ih h.2]

theorem getA_delA_setA_of_nodup {α : Type} {k : String} {l : List (String × α)}
    (h : (l.map Prod.fst).Nodup) (v : α) :
    getA k (delA k (setA k v l)) = none := by
  induction l with
  | nil => simp [getA, setA, delA]
  | cons hd tl ih =>
    obtain ⟨a, b⟩ := hd
    simp only [List.map_cons, List.nodup_cons] at h
    by_cases ha : a = k
    · subst ha
      simp only [setA, if_pos rfl, delA, if_pos rfl]
      exact getA_eq_none_of_not_mem h.1
    · simp [getA, setA, delA, ha, ih h.2]

theorem mem_setA {α : Type} {p : String × α} {k : String} {v : α} {l : List (String × α)}
    (h : p ∈ setA k v l) : p ∈ l ∨ p = (k, v) := by
  induction l with
  | nil =>
    simp only [setA, List.mem_singleton] at h
    exact Or.inr h
  | cons hd tl ih =>
    obtain ⟨a, b⟩ := hd
    by_cases ha : a = k
    · subst ha
      simp [setA] at h
      rcases h with h | h
      · exact Or.inr (by simp [h])
      · exact Or.inl (List.mem_cons_of_mem _ h)
    · simp only [setA, if_neg ha] at h
      rcases List.mem_cons.mp h with h | h
      · exact Or.inl (by simp [h])
      · rcases ih h with hh | hh
        · exact Or.inl (List.mem_cons_of_mem _ hh)
        · exact Or.inr hh

theorem mem_mapAt {α : Type} {p : String × α} {k : String} {f : α → α}
    {l : List (String × α)} (h : p ∈ mapAt k f l) :
    p ∈ l ∨ ∃ v, (k, v) ∈ l ∧ p = (k, f v) := by
  induction l with
  | nil => simp [mapAt] at h
  | cons hd tl ih =>
    obtain ⟨a, b⟩ := hd
    by_cases ha : a = k <;> simp [mapAt, ha] at h
    · subst ha
      rcases h with h | h
      · exact Or.inr ⟨b, by simp [h]⟩
      · exact Or.inl (List.mem_cons_of_mem _ h)
    · rcases h with h | h
      · simp [h]
      · rcases ih h with hh | ⟨v, hv, hp⟩
        · exact Or.inl (List.mem_cons_of_mem _ hh)
        · exact Or.inr ⟨v, List.mem_cons_of_mem _ hv, hp⟩

theorem getA_mem {α : Type} {k : String} {v : α} {l : List (String × α)}
    (h : getA k l = some v) : (k, v) ∈ l := by
  induction l with
  | nil => simp [getA] at h
  | cons hd tl ih =>
    obtain ⟨a, b⟩ := hd
    by_cases ha : a = k <;> simp [getA, ha] at h
    · simp [ha, h]
    · exact List.mem_cons_of_mem _ (ih h)

/-! ## What each auxiliary operation leaves untouched -/

@[simp] theorem updWin_highestZ (s : Desk) (id : String) (f : Win → Win) :
    (updWin s id f).highestZ = s.highestZ := rfl

@[simp] theorem updWin_openWindows (s : Desk) (id : String) (f : Win → Win) :
    (updWin s id f).openWindows = s.openWindows := rfl

@[simp] theorem updWin_windowPositions (s : Desk) (id : String) (f : Win → Win) :
    (updWin s id f).windowPositions = s.windowPositions := rfl

@[simp] theorem updWin_folders (s : Desk) (id : String) (f : Win → Win) :
    (updWin s id f).folders = s.folders := rfl

@[simp] theorem updWin_viewportW (s : Desk) (id : String) (f : Win → Win) :
    (updWin s id f).viewportW = s.viewportW := rfl

@[simp] theorem updWin_viewportH (s : Desk) (id : String) (f : Win → Win) :
    (updWin s id f).viewportH = s.viewportH := rfl

@[simp] theorem updWin_windows (s : Desk) (id : String) (f : Win → Win) :
    (updWin s id f).windows = mapAt id f s.windows := rfl

@[simp] theorem updateTaskbar_highestZ (s : Desk) : (updateTaskbar s).highestZ = s.highestZ := by
  unfold updateTaskbar; split <;> rfl

@[simp] theorem updateTaskbar_openWindows (s : Desk) :
    (updateTaskbar s).openWindows = s.openWindows := by
  unfold updateTaskbar; split <;> rfl

@[simp] theorem updateTaskbar_windowPositions (s : Desk) :
    (updateTaskbar s).windowPositions = s.windowPositions := by
  unfold updateTaskbar; split <;> rfl

@[simp] theorem updateTaskbar_windows (s : Desk) : (updateTaskbar s).windows = s.windows := by
  unfold updateTaskbar; split <;> rfl

@[simp] theorem updateTaskbar_folders (s : Desk) : (updateTaskbar s).folders = s.folders := by
  unfold updateTaskbar; split <;> rfl

@[simp] theorem updateTaskbar_viewportW (s : Desk) :
    (updateTaskbar s).viewportW = s.viewportW := by
  unfold updateTaskbar; split <;> rfl

@[simp] theorem updateTaskbar_viewportH (s : Desk) :
    (updateTaskbar s).viewportH = s.viewportH := by
  unfold updateTaskbar; split <;> rfl

@[simp] theorem updateTaskbarActiveState_highestZ (s : Desk) (id : String) :
    (updateTaskbarActiveState s id).highestZ = s.highestZ := by
  unfold updateTaskbarActiveState; split <;> simp

@[simp] theorem updateTaskbarActiveState_openWindows (s : Desk) (id : String) :
    (updateTaskbarActiveState s id).openWindows = s.openWindows := by
  unfold updateTaskbarActiveState; split <;> simp

@[simp] theorem updateTaskbarActiveState_windowPositions (s : Desk) (id : String) :
    (updateTaskbarActiveState s id).windowPositions = s.windowPositions := by
  unfold updateTaskbarActiveState; split <;> simp

@[simp] theorem updateTaskbarActiveState_windows (s : Desk) (id : String) :
    (updateTaskbarActiveState s id).windows = s.windows := by
  unfold updateTaskbarActiveState; split <;> simp

@[simp] theorem updateTaskbarActiveState_folders (s : Desk) (id : String) :
    (updateTaskbarActiveState s id).folders = s.folders := by
  unfold updateTaskbarActiveState; split <;> simp

@[simp] theorem updateTaskbarActiveState_viewportW (s : Desk) (id : String) :
    (updateTaskbarActiveState s id).viewportW = s.viewportW := by
  unfold updateTaskbarActiveState; split <;> simp

@[simp] theorem updateTaskbarActiveState_viewportH (s : Desk) (id : String) :
    (updateTaskbarActiveState s id).viewportH = s.viewportH := by
  unfold updateTaskbarActiveState; split <;> simp

@[simp] theorem bringToFront_highestZ (s : Desk) (id : String) :
    (bringToFront s id).highestZ = s.highestZ + 1 := by
  unfold bringToFront; simp

@[simp] theorem bringToFront_openWindows (s : Desk) (id : String) :
    (bringToFront s id).openWindows = s.openWindows := by
  unfold bringToFront; simp

@[simp] theorem bringToFront_windowPositions (s : Desk) (id : String) :
    (bringToFront s id).windowPositions = s.windowPositions := by
  unfold bringToFront; simp

@[simp] theorem bringToFront_folders (s : Desk) (id : String) :
    (bringToFront s id).folders = s.folders := by
  unfold bringToFront; simp

@[simp] theorem bringToFront_viewportW (s : Desk) (id : String) :
    (bringToFront s id).viewportW = s.viewportW := by
  unfold bringToFront; simp

@[simp] theorem bringToFront_viewportH (s : Desk) (id : String) :
    (bringToFront s id).viewportH = s.viewportH := by
  unfold bringToFront; simp

theorem bringToFront_getA_self (s : Desk) (id : String) :
    getA id (bringToFront s id).windows =
      (getA id s.windows).map fun w =>
        { w with zIndex := some (s.highestZ + 1), active := true } := by
  unfold bringToFront
  simp only [updateTaskbarActiveState_windows]
  rw [getA_mapAt_self,
    getA_map_snd id (fun w => { w with active := false }) s.windows]
  cases getA id s.windows <;> rfl

theorem bringToFront_getA_ne (s : Desk) {k id : String} (h : id ≠ k) :
    getA k (bringToFront s id).windows =
      (getA k s.windows).map fun w => { w with active := false } := by
  unfold bringToFront
  simp only [updateTaskbarActiveState_windows]
  rw [getA_mapAt_ne h, getA_map_snd k (fun w => { w with active := false }) s.windows]

/-! ## Characterizations of the lifecycle operations -/

theorem openWindow_windowPositions (s : Desk) (id : String) :
    (openWindow s id).windowPositions = s.windowPositions := by
  unfold openWindow
  split
  · rfl
  · split
    · simp
    · split
      · simp
      · simp only []
        split <;> [simp; skip]
        split <;> simp

theorem openWindow_getA_saved (s : Desk) (id : String) (w : Win) (saved : SavedGeom)
    (hw : getA id s.windows = some w)
    (hr : getA id s.openWindows = none)
    (hm : isMobile s = false)
    (hd : ¬ w.display = "flex")
    (hp : getA id s.windowPositions = some saved) :
    getA id (openWindow s id).windows =
      some { w with left := some saved.x, top := some saved.y,
                    display := "flex", zIndex := some (s.highestZ + 1), active := true } := by
  unfold openWindow
  rw [hw]
  simp only [hr, hm, hp, if_neg hd, Bool.false_eq_true, if_false]
  rw [updateTaskbar_windows, bringToFront_getA_self]
  simp only [updWin_windows, updWin_highestZ, getA_mapAt_self, hw]
  rfl

theorem openWindow_getA_cascade (s : Desk) (id : String) (w : Win)
    (hw : getA id s.windows = some w)
    (hr : getA id s.openWindows = none)
    (hm : isMobile s = false)
    (hd : ¬ w.display = "flex")
    (hp : getA id s.windowPositions = none) :
    getA id (openWindow s id).windows =
      some { w with
        left := some (max 40 ((s.viewportW - orQ (offsetWidth w) 600) / 2
          + (s.openWindows.length : ℚ) * 30)),
        top := some (max 20 ((s.viewportH - 48 - orQ (offsetHeight w) 450) / 2
          + (s.openWindows.length : ℚ) * 30)),
        display := "flex", zIndex := some (s.highestZ + 1), active := true } := by
  unfold openWindow
  rw [hw]
  simp only [hr, hm, hp, if_neg hd, Bool.false_eq_true, if_false]
  rw [updateTaskbar_windows, bringToFront_getA_self]
  simp only [updWin_windows, updWin_highestZ, getA_mapAt_self, hw]
  rfl

theorem openWindow_notOpen_openWindows (s : Desk) (id : String) (w : Win)
    (hw : getA id s.windows = some w)
    (hr : getA id s.openWindows = none)
    (hd : ¬ w.display = "flex") :
    (openWindow s id).openWindows = setA id false s.openWindows := by
  unfold openWindow
  rw [hw]
  simp only [hr, if_neg hd]
  split <;> simp
  split <;> simp

theorem openWindow_notOpen_highestZ (s : Desk) (id : String) (w : Win)
    (hw : getA id s.windows = some w)
    (hr : getA id s.openWindows = none)
    (hd : ¬ w.display = "flex") :
    (openWindow s id).highestZ = s.highestZ + 1 := by
  unfold openWindow
  rw [hw]
  simp only [hr, if_neg hd]
  split <;> simp
  split <;> simp

theorem openWindow_viewportW (s : Desk) (id : String) :
    (openWindow s id).viewportW = s.viewportW := by
  unfold openWindow
  split
  · rfl
  · split
    · simp
    · split
      · simp
      · simp only []
        split <;> [simp; skip]
        split <;> simp

theorem openWindow_viewportH (s : Desk) (id : String) :
    (openWindow s id).viewportH = s.viewportH := by
  unfold openWindow
  split
  · rfl
  · split
    · simp
    · split
      · simp
      · simp only []
        split <;> [simp; skip]
        split <;> simp

theorem closeWindow_openWindows (s : Desk) (id : String) (w : Win)
    (hw : getA id s.windows = some w) :
    (closeWindow s id).openWindows = delA id s.openWindows := by
  unfold closeWindow
  rw [hw]
  simp

theorem closeWindow_windowPositions (s : Desk) (id : String) :
    (closeWindow s id).windowPositions = s.windowPositions := by
  unfold closeWindow
  split <;> simp

theorem closeWindow_getA_self (s : Desk) (id : String) (w : Win)
    (hw : getA id s.windows = some w) :
    getA id (closeWindow s id).windows =
      some { w with display := "none", maximized := false } := by
  unfold closeWindow
  rw [hw]
  simp [getA_mapAt_self, hw]

theorem closeWindow_viewportW (s : Desk) (id : String) :
    (closeWindow s id).viewportW = s.viewportW := by
  unfold closeWindow
  split <;> simp

theorem closeWindow_viewportH (s : Desk) (id : String) :
    (closeWindow s id).viewportH = s.viewportH := by
  unfold closeWindow
  split <;> simp

theorem closeWindow_highestZ (s : Desk) (id : String) :
    (closeWindow s id).highestZ = s.highestZ := by
  unfold closeWindow
  split <;> simp

theorem minimizeWindow_none (s : Desk) (id : String)
    (hw : getA id s.windows = none) : minimizeWindow s id = s := by
  unfold minimizeWindow
  rw [hw]

theorem minimizeWindow_openWindows (s : Desk) (id : String) (w : Win)
    (hw : getA id s.windows = some w) :
    (minimizeWindow s id).openWindows = setA id true s.openWindows := by
  unfold minimizeWindow
  rw [hw]
  simp

theorem minimizeWindow_getA_self (s : Desk) (id : String) (w : Win)
    (hw : getA id s.windows = some w) :
    getA id (minimizeWindow s id).windows = some { w with display := "none" } := by
  unfold minimizeWindow
  rw [hw]
  simp [getA_mapAt_self, hw]

theorem toggleMaximize_off (s : Desk) (id : String) (w : Win)
    (hw : getA id s.windows = some w) (hmax : w.maximized = false) :
    toggleMaximize s id =
      updWin { s with windowPositions := setA id (maximizeSave w) s.windowPositions }
        id fun w' => { w' with maximized := true } := by
  unfold toggleMaximize maximizeSave
  rw [hw]
  simp [hmax]

theorem toggleMaximize_on_saved (s : Desk) (id : String) (w : Win) (saved : SavedGeom)
    (hw : getA id s.windows = some w) (hmax : w.maximized = true)
    (hp : getA id s.windowPositions = some saved) :
    getA id (toggleMaximize s id).windows =
      some { w with maximized := false, left := some saved.x, top := some saved.y,
                    width := saved.w, height := saved.h } ∧
    (toggleMaximize s id).windowPositions = s.windowPositions := by
  unfold toggleMaximize
  rw [hw]
  simp only [hmax, if_true, updWin_windowPositions, getA_mapAt_self, hp]
  constructor
  · simp [getA_mapAt_self, hw]
  · trivial

/-! ## Focus monotonicity, the maximize invariant, drag and resize -/

theorem zTrace_chain (s : Desk) (ids : List String) :
    List.Chain' (fun a b => a < b) (zTrace s ids) := by
  induction ids generalizing s with
  | nil => simp [zTrace]
  | cons id rest ih =>
    rw [zTrace, List.chain'_cons']
    refine ⟨?_, ih (bringToFront s id)⟩
    intro b hb
    cases rest with
    | nil => simp [zTrace] at hb
    | cons id2 r2 =>
      simp only [zTrace, List.head?_cons, Option.mem_def, Option.some_inj] at hb
      subst hb
      simp [bringToFront_highestZ]

theorem bringToFront_active_iff (s : Desk) (id k : String) (w' : Win)
    (h : getA k (bringToFront s id).windows = some w') : w'.active = true ↔ k = id := by
  by_cases hk : k = id
  · subst hk
    rw [bringToFront_getA_self] at h
    obtain ⟨w0, hw0, hfw⟩ := Option.map_eq_some'.mp h
    simp [← hfw]
  · rw [bringToFront_getA_ne s fun hh => hk hh.symm] at h
    obtain ⟨w0, hw0, hfw⟩ := Option.map_eq_some'.mp h
    simp [← hfw, hk]

theorem bringToFront_windows_eq (s : Desk) (id : String) :
    (bringToFront s id).windows =
      mapAt id (fun w => { w with zIndex := some (s.highestZ + 1), active := true })
        (s.windows.map fun p => (p.1, { p.2 with active := false })) := by
  unfold bringToFront
  simp

theorem maxInv_congr (s t : Desk) (hw : s.windows = t.windows)
    (hp : s.windowPositions = t.windowPositions) (h : MaxInv t) : MaxInv s := by
  intro p hmem hm
  rw [hw] at hmem
  rw [hp]
  exact h p hmem hm

theorem maxInv_updWin (s : Desk) (id : String) (f : Win → Win)
    (hf : ∀ w, (f w).maximized = true → w.maximized = true)
    (h : MaxInv s) : MaxInv (updWin s id f) := by
  intro p hmem hm
  simp only [updWin_windows] at hmem
  simp only [updWin_windowPositions]
  rcases mem_mapAt hmem with hmem' | ⟨v, hv, hpv⟩
  · exact h p hmem' hm
  · subst hpv
    exact h (id, v) hv (hf v hm)

theorem maxInv_bringToFront (s : Desk) (id : String) (h : MaxInv s) :
    MaxInv (bringToFront s id) := by
  intro p hmem hm
  rw [bringToFront_windows_eq] at hmem
  simp only [bringToFront_windowPositions]
  rcases mem_mapAt hmem with hmem' | ⟨v, hv, hpv⟩
  · rcases List.mem_map.mp hmem' with ⟨q, hq, hq2⟩
    rw [← hq2] at hm ⊢
    exact h q hq hm
  · rcases List.mem_map.mp hv with ⟨q, hq, hq2⟩
    have h1 : q.1 = id := congrArg Prod.fst hq2
    have h2 : v.maximized = q.2.maximized := by
      have := congrArg (fun p => p.2.maximized) hq2
      simpa using this.symm
    subst hpv
    simp only [← h1]
    exact h q hq (by simpa [h2] using hm)

theorem maxInv_updateTaskbar (s : Desk) (h : MaxInv s) : MaxInv (updateTaskbar s) :=
  maxInv_congr _ _ (updateTaskbar_windows s) (updateTaskbar_windowPositions s) h

theorem maxInv_openWindow (s : Desk) (id : String) (h : MaxInv s) :
    MaxInv (openWindow s id) := by
  unfold openWindow
  split
  · exact h
  · split
    · exact maxInv_updateTaskbar _ (maxInv_bringToFront _ _
        (maxInv_updWin _ _ _ (fun w hm => hm) h))
    · split
      · exact maxInv_bringToFront _ _ h
      · simp only []
        split
        · exact maxInv_updateTaskbar _ (maxInv_bringToFront _ _
            (maxInv_updWin _ _ _ (fun w hm => hm) h))
        · split
          · exact maxInv_updateTaskbar _ (maxInv_bringToFront _ _
              (maxInv_updWin _ _ _ (fun w hm => hm)
                (maxInv_updWin _ _ _ (fun w hm => hm) h)))
          · exact maxInv_updateTaskbar _ (maxInv_bringToFront _ _
              (maxInv_updWin _ _ _ (fun w hm => hm)
                (maxInv_updWin _ _ _ (fun w hm => hm) h)))

theorem maxInv_closeWindow (s : Desk) (id : String) (h : MaxInv s) :
    MaxInv (closeWindow s id) := by
  unfold closeWindow
  split
  · exact h
  · exact maxInv_updateTaskbar _ (maxInv_updWin _ _ _ (fun w hm => by simp at hm) h)

theorem maxInv_minimizeWindow (s : Desk) (id : String) (h : MaxInv s) :
    MaxInv (minimizeWindow s id) := by
  unfold minimizeWindow
  split
  · exact h
  · exact maxInv_updateTaskbar _ (maxInv_updWin _ _ _ (fun w hm => hm) h)

theorem maxInv_toggleMaximize (s : Desk) (id : String) (h : MaxInv s) :
    MaxInv (toggleMaximize s id) := by
  unfold toggleMaximize
  split
  · exact h
  · split
    · simp only []
      split
      · exact maxInv_updWin _ _ _ (fun w hm => hm)
          (maxInv_updWin _ _ _ (fun w hm => by simp at hm) h)
      · exact maxInv_updWin _ _ _ (fun w hm => by simp at hm) h
    · intro p hmem hm
      simp only [updWin_windows, updWin_windowPositions] at hmem ⊢
      rcases mem_mapAt hmem with hmem' | ⟨v, hv, hpv⟩
      · by_cases hpid : p.1 = id
        · rw [hpid, getA_setA_self]
          rfl
        · rw [getA_setA_ne (fun hh => hpid hh.symm)]
          exact h p hmem' hm
      · subst hpv
        rw [getA_setA_self]
        rfl

theorem maxInv_onWindowDragMove (s : Desk) (id : String) (origX origY dx dy : ℚ)
    (h : MaxInv s) : MaxInv (onWindowDragMove s id origX origY dx dy) := by
  unfold onWindowDragMove
  split
  · exact h
  · exact maxInv_updWin _ _ _ (fun w hm => hm) h

theorem maxInv_windowDragCommit (s : Desk) (id : String) (h : MaxInv s) :
    MaxInv (windowDragCommit s id) := by
  unfold windowDragCommit
  split
  · exact h
  · intro p hmem hm
    by_cases hpid : p.1 = id
    · rw [hpid, getA_setA_self]
      rfl
    · rw [getA_setA_ne (fun hh => hpid hh.symm)]
      exact h p hmem hm

theorem maxInv_onFolderDragMove (s : Desk) (id : String) (origX origY dx dy : ℚ)
    (h : MaxInv s) : MaxInv (onFolderDragMove s id origX origY dx dy) := by
  unfold onFolderDragMove
  split
  · exact h
  · exact h

theorem maxInv_onWindowResizeMove (s : Desk) (id : String) (startW startH dx dy : ℚ)
    (h : MaxInv s) : MaxInv (onWindowResizeMove s id startW startH dx dy) := by
  unfold onWindowResizeMove
  split
  · exact h
  · exact maxInv_updWin _ _ _ (fun w hm => hm) h

theorem clamp_lower (val lo hi : ℚ) : lo ≤ clamp val lo hi := le_max_left lo _

theorem clamp_upper (val lo hi : ℚ) (h : lo ≤ hi) : clamp val lo hi ≤ hi :=
  max_le h (min_le_left hi val)

theorem onWindowDragMove_getA (s : Desk) (id : String) (w : Win) (origX origY dx dy : ℚ)
    (hw : getA id s.windows = some w) :
    getA id (onWindowDragMove s id origX origY dx dy).windows =
      some { w with
        left := some (clamp (origX + dx) (-(offsetWidth w) + 100) (s.viewportW - 50))
        top := some (clamp (origY + dy) 0 (s.viewportH - 48 - 40)) } := by
  unfold onWindowDragMove
  rw [hw]
  simp [getA_mapAt_self, hw]
  exact ⟨rfl, rfl⟩

theorem onFolderDragMove_getA (s : Desk) (id : String) (f : Folder) (origX origY dx dy : ℚ)
    (hf : getA id s.folders = some f) :
    getA id (onFolderDragMove s id origX origY dx dy).folders =
      some { f with
        left := some (clamp (origX + dx) 0 (s.viewportW - 80))
        top := some (clamp (origY + dy) 0 (s.viewportH - 48 - 80)) } := by
  unfold onFolderDragMove updFolder
  rw [hf]
  simp [getA_mapAt_self, hf]
  exact ⟨rfl, rfl⟩

theorem onWindowResizeMove_getA (s : Desk) (id : String) (w : Win)
    (startW startH dx dy : ℚ) (hw : getA id s.windows = some w) :
    getA id (onWindowResizeMove s id startW startH dx dy).windows =
      some { w with
        width := some (max 320 (startW + dx))
        height := some (max 200 (startH + dy)) } := by
  unfold onWindowResizeMove
  rw [hw]
  simp [getA_mapAt_self, hw]

/-! ## The claims -/

/-- Claim C1, refuted by the code (the spec is the evident intent — the
first half of `updateTaskbarActiveState` marks exactly the matching item
active, and is then clobbered by the unconditional rebuild): with `A`, `B`,
`C` opened in order and `bringToFront(B)` called last, `B` is the unique
active window element and holds the top stacking order
(`order(A) = 101 < order(C) = 103 < order(B) = 104`), yet the taskbar
rebuild tags an item active exactly when its window is not minimized, so
`A`'s and `C`'s items carry the active marking alongside `B`'s —
contradicting "only B's taskbar item carries the active marking". -/
theorem c1_taskbar_marks_all_visible_items_active :
    c1Final.taskbar.map (fun items => items.map fun it => (it.id, it.active))
        = some [("A", true), ("B", true), ("C", true)] ∧
    (getA "A" c1Final.windows).map Win.active = some false ∧
    (getA "C" c1Final.windows).map Win.active = some false ∧
    (getA "B" c1Final.windows).map Win.active = some true ∧
    (getA "A" c1Final.windows).map Win.zIndex = some (some 101) ∧
    (getA "C" c1Final.windows).map Win.zIndex = some (some 103) ∧
    (getA "B" c1Final.windows).map Win.zIndex = some (some 104) := by
  decide

/-- Claim C2 counterexample: the first `open(A)` on a fresh desktop writes
nothing into SavedGeometry (`windowPositions` stays empty), and after
`open(A); open(B); close(A)` a reopen of `A` places it at 242, not at the
212 of the first open's placement — the cascade is recomputed from the
current open count, so geometry does not survive the close/reopen cycle as
claimed. -/
theorem c2_first_open_saves_nothing :
    getA "A" (openWindow desk0 "A").windowPositions = none ∧
    winLeft (openWindow desk0 "A") "A" = some (some 212) ∧
    winLeft (openWindow (closeWindow (openWindow (openWindow desk0 "A") "B") "A") "A") "A"
        = some (some 242) := by
  refine ⟨?_, ?_, ?_⟩ <;> with_unfolding_all rfl

/-- Claim C2, amended: `open` never writes SavedGeometry; after `open(id)`
then `close(id)`, `isOpen(id)` is false, and a subsequent `open(id)`
restores the recorded geometry only when a SavedGeometry record already
exists (written by a drag-commit or maximize), in which case the reopened
panel gets exactly the saved `x`/`y`. -/
theorem c2_close_reopen_restores_saved_geometry (s : Desk) (id : String) (w : Win)
    (saved : SavedGeom)
    (hw : getA id s.windows = some w)
    (hr : getA id s.openWindows = none)
    (hnd : (s.openWindows.map Prod.fst).Nodup)
    (hm : isMobile s = false)
    (hd : ¬ w.display = "flex")
    (hp : getA id s.windowPositions = some saved) :
    isOpen (closeWindow (openWindow s id) id) id = false ∧
    (openWindow s id).windowPositions = s.windowPositions ∧
    winLeft (openWindow (closeWindow (openWindow s id) id) id) id = some (some saved.x) ∧
    winTop (openWindow (closeWindow (openWindow s id) id) id) id = some (some saved.y) := by
  have hw1 := openWindow_getA_saved s id w saved hw hr hm hd hp
  have hro1 := openWindow_notOpen_openWindows s id w hw hr hd
  have hpos1 := openWindow_windowPositions s id
  have hw2 := closeWindow_getA_self (openWindow s id) id _ hw1
  have hopen2 : getA id (closeWindow (openWindow s id) id).openWindows = none := by
    rw [closeWindow_openWindows (openWindow s id) id _ hw1, hro1]
    exact getA_delA_setA_of_nodup hnd false
  have hpos2 : (closeWindow (openWindow s id) id).windowPositions = s.windowPositions := by
    rw [closeWindow_windowPositions, hpos1]
  have hm2 : isMobile (closeWindow (openWindow s id) id) = false := by
    unfold isMobile at hm ⊢
    rw [closeWindow_viewportW, openWindow_viewportW]
    exact hm
  have hfinal := openWindow_getA_saved (closeWindow (openWindow s id) id) id _ saved hw2
    hopen2 hm2 (by simp) (by rw [hpos2]; exact hp)
  refine ⟨?_, hpos1, ?_, ?_⟩
  · unfold isOpen
    rw [hopen2]
    rfl
  · unfold winLeft
    rw [hfinal]
    rfl
  · unfold winTop
    rw [hfinal]
    rfl

/-- Claim C2 amended, witnessed at `desk2`. -/
theorem c2_close_reopen_restores_saved_geometry_witness :
    getA "A" desk2.windowPositions = some savedG ∧
    winLeft (openWindow (closeWindow (openWindow desk2 "A") "A") "A") "A"
        = some (some savedG.x) := by
  have h1 : getA "A" desk2.windows = some closedWin := by decide
  have h2 : getA "A" desk2.openWindows = none := by decide
  have h3 : (desk2.openWindows.map Prod.fst).Nodup := by simp [desk2]
  have h4 : isMobile desk2 = false := by decide
  have h5 : ¬ closedWin.display = "flex" := by decide
  have h6 : getA "A" desk2.windowPositions = some savedG := by decide
  exact ⟨h6, (c2_close_reopen_restores_saved_geometry desk2 "A" closedWin savedG
    h1 h2 h3 h4 h5 h6).2.2.1⟩

/-- Claim C3 counterexample: on a desktop where `A`'s panel element exists
but `A` is not open (no registry record), `minimize(A)` is not a no-op —
it creates the registry record `{ minimized := true }` for `A`. -/
theorem c3_minimize_creates_registry_record :
    getA "A" desk0.openWindows = none ∧
    minimizeWindow desk0 "A" ≠ desk0 ∧
    getA "A" (minimizeWindow desk0 "A").openWindows = some true := by
  refine ⟨by decide, by decide, by decide⟩

/-- Claim C3, amended: `minimize(id)` is a silent no-op only when the
panel-element lookup fails; when the panel exists but no registry record
does, it hides the panel and defensively inserts a minimized record. -/
theorem c3_minimize_defensive (s : Desk) (id : String) (w : Win) :
    (getA id s.windows = none → minimizeWindow s id = s) ∧
    (getA id s.windows = some w → getA id s.openWindows = none →
      getA id (minimizeWindow s id).openWindows = some true ∧
      (getA id (minimizeWindow s id).windows).map Win.display = some "none") := by
  constructor
  · exact fun hw => minimizeWindow_none s id hw
  · intro hw hr
    constructor
    · rw [minimizeWindow_openWindows s id w hw, getA_setA_self]
    · rw [minimizeWindow_getA_self s id w hw]
      rfl

/-- Claim C3 amended, witnessed at `desk0`. -/
theorem c3_minimize_defensive_witness :
    getA "B" desk0.windows = some closedWin ∧
    getA "B" (minimizeWindow desk0 "B").openWindows = some true := by
  have h1 : getA "B" desk0.windows = some closedWin := by decide
  have h2 : getA "B" desk0.openWindows = none := by decide
  exact ⟨h1, ((c3_minimize_defensive desk0 "B" closedWin).2 h1 h2).1⟩

/-- Claim C4: `toggleMaximize` is its own inverse — for any identity whose
window is Open-Visible (`display = "flex"`) and not maximized, two
successive `toggleMaximize(id)` calls leave the window not maximized with
exactly the rendered position (`offsetLeft`/`offsetTop`) and size
(`offsetWidth`/`offsetHeight`) it had immediately before the first call. -/
theorem c4_toggleMaximize_involutive (s : Desk) (id : String) (w : Win)
    (hw : getA id s.windows = some w) (hmax : w.maximized = false)
    (hdisp : w.display = "flex") :
    (getA id (toggleMaximize (toggleMaximize s id) id).windows).map Win.maximized
        = some false ∧
    (getA id (toggleMaximize (toggleMaximize s id) id).windows).map offsetLeft
        = some (offsetLeft w) ∧
    (getA id (toggleMaximize (toggleMaximize s id) id).windows).map offsetTop
        = some (offsetTop w) ∧
    (getA id (toggleMaximize (toggleMaximize s id) id).windows).map offsetWidth
        = some (offsetWidth w) ∧
    (getA id (toggleMaximize (toggleMaximize s id) id).windows).map offsetHeight
        = some (offsetHeight w) := by
  have h1 := toggleMaximize_off s id w hw hmax
  have hw1 : getA id (toggleMaximize s id).windows = some { w with maximized := true } := by
    rw [h1]
    simp [getA_mapAt_self, hw]
  have hp1 : getA id (toggleMaximize s id).windowPositions = some (maximizeSave w) := by
    rw [h1]
    simp [getA_setA_self]
  have h2 := toggleMaximize_on_saved (toggleMaximize s id) id { w with maximized := true }
    (maximizeSave w) hw1 rfl hp1
  rw [h2.1]
  refine ⟨rfl, ?_, ?_, ?_, ?_⟩
  · simp [offsetLeft, maximizeSave, hdisp, hmax]
  · simp [offsetTop, maximizeSave, hdisp, hmax]
  · cases hww : w.width <;> simp [offsetWidth, maximizeSave, hdisp, hww]
  · cases hwh : w.height <;> simp [offsetHeight, maximizeSave, hdisp, hwh]

/-- Claim C4, witnessed at `desk4`. -/
theorem c4_toggleMaximize_involutive_witness :
    getA "A" desk4.windows = some visWin ∧
    (getA "A" (toggleMaximize (toggleMaximize desk4 "A") "A").windows).map offsetLeft
        = some (offsetLeft visWin) := by
  have h1 : getA "A" desk4.windows = some visWin := by decide
  have h2 : visWin.maximized = false := by decide
  have h3 : visWin.display = "flex" := by decide
  exact ⟨h1, (c4_toggleMaximize_involutive desk4 "A" visWin h1 h2 h3).2.1⟩

/-- Claim C5: over any sequence of `bringToFront` calls the assigned
stacking-order values are strictly increasing (each call assigns the fresh
value `highestZ + 1`, never reusing or decrementing), and after each call
the window just brought to front is the unique window marked active
(`w'.active = true ↔ k = id` for every window `k` present afterwards). -/
theorem c5_bringToFront_monotone_unique_active (s : Desk) (ids : List String)
    (id k : String) (w w' : Win)
    (hw : getA id s.windows = some w)
    (hk : getA k (bringToFront s id).windows = some w') :
    List.Chain' (fun a b => a < b) (zTrace s ids) ∧
    (bringToFront s id).highestZ = s.highestZ + 1 ∧
    getA id (bringToFront s id).windows =
      some { w with zIndex := some (s.highestZ + 1), active := true } ∧
    (w'.active = true ↔ k = id) := by
  refine ⟨zTrace_chain s ids, bringToFront_highestZ s id, ?_,
    bringToFront_active_iff s id k w' hk⟩
  rw [bringToFront_getA_self, hw]
  rfl

/-- Claim C5, witnessed at `desk4`. -/
theorem c5_bringToFront_monotone_unique_active_witness :
    getA "A" desk4.windows = some visWin ∧
    (bringToFront desk4 "A").highestZ = desk4.highestZ + 1 ∧
    getA "A" (bringToFront desk4 "A").windows =
      some { visWin with zIndex := some (desk4.highestZ + 1), active := true } := by
  have h1 : getA "A" desk4.windows = some visWin := by decide
  have h2 : getA "A" (bringToFront desk4 "A").windows =
      some { visWin with zIndex := some 102, active := true } := by decide
  have h := c5_bringToFront_monotone_unique_active desk4 ["A", "A"] "A" "A" visWin
    { visWin with zIndex := some 102, active := true } h1 h2
  exact ⟨h1, h.2.1, h.2.2.1⟩

/-- Claim C6 counterexample: with a viewport of width 700 (so the
non-mobile guard admits the drag session) and height 0, a window-drag move
applies `top = 0`, which lies outside the documented bound
`top ≤ viewportHeight − 48 − 40 = −88` — the upper clamp bounds fail on a
degenerate viewport because `clamp` returns its lower bound when the range
is empty. -/
theorem c6_degenerate_viewport_escapes_bounds :
    isMobile deskFlat = false ∧
    winTop (onWindowDragMove deskFlat "A" 10 10 0 5) "A" = some (some 0) ∧
    ¬ ((0 : ℚ) ≤ deskFlat.viewportH - 48 - 40) := by
  refine ⟨by decide, by with_unfolding_all rfl, by norm_num [deskFlat, desk4]⟩

/-- Claim C6, amended: provided the viewport is at least 128px tall (88px
suffices for windows; 128px is what icons need) and wider than the 640px
mobile breakpoint that gates every drag session, an applied drag position
never leaves the documented clamp bounds — window: `left ≥ −width + 100`,
`left ≤ viewportWidth − 50`, `0 ≤ top ≤ viewportHeight − 48 − 40`; icon:
within `[0, viewportWidth − 80] × [0, viewportHeight − 48 − 80]`.  The
lower bounds hold for any viewport. -/
theorem c6_drag_clamp_bounds (s : Desk) (id : String) (w : Win) (f : Folder)
    (origX origY dx dy : ℚ)
    (hw : getA id s.windows = some w)
    (hf : getA id s.folders = some f)
    (hww : 0 ≤ offsetWidth w)
    (hvw : 640 < s.viewportW)
    (hvh : 128 ≤ s.viewportH) :
    winLeft (onWindowDragMove s id origX origY dx dy) id
        = some (some (clamp (origX + dx) (-(offsetWidth w) + 100) (s.viewportW - 50))) ∧
    winTop (onWindowDragMove s id origX origY dx dy) id
        = some (some (clamp (origY + dy) 0 (s.viewportH - 48 - 40))) ∧
    -(offsetWidth w) + 100 ≤ clamp (origX + dx) (-(offsetWidth w) + 100) (s.viewportW - 50) ∧
    clamp (origX + dx) (-(offsetWidth w) + 100) (s.viewportW - 50) ≤ s.viewportW - 50 ∧
    0 ≤ clamp (origY + dy) 0 (s.viewportH - 48 - 40) ∧
    clamp (origY + dy) 0 (s.viewportH - 48 - 40) ≤ s.viewportH - 48 - 40 ∧
    (getA id (onFolderDragMove s id origX origY dx dy).folders).map Folder.left
        = some (some (clamp (origX + dx) 0 (s.viewportW - 80))) ∧
    (getA id (onFolderDragMove s id origX origY dx dy).folders).map Folder.top
        = some (some (clamp (origY + dy) 0 (s.viewportH - 48 - 80))) ∧
    0 ≤ clamp (origX + dx) 0 (s.viewportW - 80) ∧
    clamp (origX + dx) 0 (s.viewportW - 80) ≤ s.viewportW - 80 ∧
    0 ≤ clamp (origY + dy) 0 (s.viewportH - 48 - 80) ∧
    clamp (origY + dy) 0 (s.viewportH - 48 - 80) ≤ s.viewportH - 48 - 80 := by
  have hwv := onWindowDragMove_getA s id w origX origY dx dy hw
  have hfv := onFolderDragMove_getA s id f origX origY dx dy hf
  refine ⟨?_, ?_, clamp_lower _ _ _, clamp_upper _ _ _ (by linarith), clamp_lower _ _ _,
    clamp_upper _ _ _ (by linarith), ?_, ?_, clamp_lower _ _ _, clamp_upper _ _ _ (by linarith),
    clamp_lower _ _ _, clamp_upper _ _ _ (by linarith)⟩
  · unfold winLeft
    rw [hwv]
    rfl
  · unfold winTop
    rw [hwv]
    rfl
  · rw [hfv]
    rfl
  · rw [hfv]
    rfl

/-- Claim C6 amended, witnessed at `desk4`. -/
theorem c6_drag_clamp_bounds_witness :
    getA "A" desk4.windows = some visWin ∧
    winLeft (onWindowDragMove desk4 "A" 50 60 5000 (-5000)) "A"
        = some (some (clamp (50 + 5000) (-(offsetWidth visWin) + 100) (desk4.viewportW - 50))) ∧
    (0 : ℚ) ≤ clamp (60 + (-5000)) 0 (desk4.viewportH - 48 - 40) := by
  have h1 : getA "A" desk4.windows = some visWin := by decide
  have h2 : getA "A" desk4.folders = some ⟨some 10, some 10, some "🗀", false⟩ := by decide
  have h3 : (0 : ℚ) ≤ offsetWidth visWin := by norm_num [offsetWidth, visWin]
  have h4 : (640 : ℚ) < desk4.viewportW := by norm_num [desk4]
  have h5 : (128 : ℚ) ≤ desk4.viewportH := by norm_num [desk4]
  have h := c6_drag_clamp_bounds desk4 "A" visWin ⟨some 10, some 10, some "🗀", false⟩
    50 60 5000 (-5000) h1 h2 h3 h4 h5
  exact ⟨h1, h.1, h.2.2.2.2.1⟩

/-- Claim C7: every resize move applies `width = max(320, startW + dx)` and
`height = max(200, startH + dy)`, so the applied width is never below 320
and the applied height never below 200, and any delta that would drive a
dimension below its floor yields exactly 320 (width) or exactly 200
(height). -/
theorem c7_resize_floor (s : Desk) (id : String) (w : Win) (startW startH dx dy : ℚ)
    (hw : getA id s.windows = some w) :
    (getA id (onWindowResizeMove s id startW startH dx dy).windows).map Win.width
        = some (some (max 320 (startW + dx))) ∧
    (getA id (onWindowResizeMove s id startW startH dx dy).windows).map Win.height
        = some (some (max 200 (startH + dy))) ∧
    (320 : ℚ) ≤ max 320 (startW + dx) ∧
    (200 : ℚ) ≤ max 200 (startH + dy) ∧
    (startW + dx < 320 → max 320 (startW + dx) = 320) ∧
    (startH + dy < 200 → max 200 (startH + dy) = 200) := by
  refine ⟨?_, ?_, le_max_left _ _, le_max_left _ _, ?_, ?_⟩
  · rw [onWindowResizeMove_getA s id w startW startH dx dy hw]
    rfl
  · rw [onWindowResizeMove_getA s id w startW startH dx dy hw]
    rfl
  · intro hlt
    exact max_eq_left hlt.le
  · intro hlt
    exact max_eq_left hlt.le

/-- Claim C7, witnessed at `desk4`. -/
theorem c7_resize_floor_witness :
    getA "A" desk4.windows = some visWin ∧
    (getA "A" (onWindowResizeMove desk4 "A" 400 300 (-200) (-500)).windows).map Win.width
        = some (some (max 320 (400 + (-200)))) ∧
    max (320 : ℚ) (400 + (-200)) = 320 := by
  have h1 : getA "A" desk4.windows = some visWin := by decide
  have h := c7_resize_floor desk4 "A" visWin 400 300 (-200) (-500) h1
  exact ⟨h1, h.1, h.2.2.2.2.1 (by norm_num)⟩

/-- Claim C8: `open(id)` on a closed identity with no SavedGeometry on a
non-narrow viewport places the panel at
`max(40, (workAreaWidth − windowWidth)/2 + 30·count)` horizontally and
`max(20, (workAreaHeight − windowHeight)/2 + 30·count)` vertically, where
the work area is `getDesktopBounds` (viewport minus the 48px taskbar band),
`count` the current open-window count, and the window size is the measured
`offsetWidth`/`offsetHeight` with the source's `|| 600` / `|| 450`
fallbacks. -/
theorem c8_cascade_placement (s : Desk) (id : String) (w : Win)
    (hw : getA id s.windows = some w)
    (hr : getA id s.openWindows = none)
    (hm : isMobile s = false)
    (hd : ¬ w.display = "flex")
    (hp : getA id s.windowPositions = none) :
    winLeft (openWindow s id) id = some (some (max 40
      (((getDesktopBounds s).width - orQ (offsetWidth w) 600) / 2
        + (s.openWindows.length : ℚ) * 30))) ∧
    winTop (openWindow s id) id = some (some (max 20
      (((getDesktopBounds s).height - orQ (offsetHeight w) 450) / 2
        + (s.openWindows.length : ℚ) * 30))) := by
  have h := openWindow_getA_cascade s id w hw hr hm hd hp
  unfold winLeft winTop
  rw [h]
  exact ⟨rfl, rfl⟩

/-- Claim C8, witnessed at `desk0`. -/
theorem c8_cascade_placement_witness :
    isMobile desk0 = false ∧
    winLeft (openWindow desk0 "A") "A" = some (some (max 40
      (((getDesktopBounds desk0).width - orQ (offsetWidth closedWin) 600) / 2
        + (desk0.openWindows.length : ℚ) * 30))) := by
  have h1 : getA "A" desk0.windows = some closedWin := by decide
  have h2 : getA "A" desk0.openWindows = none := by decide
  have h3 : isMobile desk0 = false := by decide
  have h4 : ¬ closedWin.display = "flex" := by decide
  have h5 : getA "A" desk0.windowPositions = none := by decide
  exact ⟨h3, (c8_cascade_placement desk0 "A" closedWin h1 h2 h3 h4 h5).1⟩

/-- Claim C9: when the panel-element lookup for an identity fails, `open`,
`close`, `minimize` and `toggleMaximize` each return the state unchanged —
no registry, saved-geometry, focus-counter or taskbar mutation, and no
exception (the operations are total). -/
theorem c9_missing_element_silent_noop (s : Desk) (id : String)
    (hw : getA id s.windows = none) :
    openWindow s id = s ∧ closeWindow s id = s ∧ minimizeWindow s id = s ∧
    toggleMaximize s id = s := by
  refine ⟨?_, ?_, ?_, ?_⟩
  · unfold openWindow
    rw [hw]
  · unfold closeWindow
    rw [hw]
  · unfold minimizeWindow
    rw [hw]
  · unfold toggleMaximize
    rw [hw]

/-- Claim C9, witnessed at `desk0` with the unknown identity `Z`. -/
theorem c9_missing_element_silent_noop_witness :
    getA "Z" desk0.windows = none ∧ openWindow desk0 "Z" = desk0 := by
  have h : getA "Z" desk0.windows = none := by decide
  exact ⟨h, (c9_missing_element_silent_noop desk0 "Z" h).1⟩

/-- Claim C10: the invariant "every window carrying the maximized display
state has a SavedGeometry record" is preserved by every operation (the
maximize branch writes the record before adding the class, and records are
never deleted), and under it the restore branch of `toggleMaximize` always
finds saved geometry for a maximized window. -/
theorem c10_maximized_has_saved_geometry (s : Desk) (id : String)
    (origX origY dx dy startW startH : ℚ) (h : MaxInv s) :
    MaxInv (openWindow s id) ∧ MaxInv (closeWindow s id) ∧
    MaxInv (minimizeWindow s id) ∧ MaxInv (toggleMaximize s id) ∧
    MaxInv (bringToFront s id) ∧
    MaxInv (onWindowDragMove s id origX origY dx dy) ∧
    MaxInv (windowDragCommit s id) ∧
    MaxInv (onWindowResizeMove s id startW startH dx dy) ∧
    MaxInv (onFolderDragMove s id origX origY dx dy) ∧
    MaxInv (updateTaskbar s) ∧
    (∀ w, getA id s.windows = some w → w.maximized = true →
      (getA id s.windowPositions).isSome = true) := by
  refine ⟨maxInv_openWindow s id h, maxInv_closeWindow s id h, maxInv_minimizeWindow s id h,
    maxInv_toggleMaximize s id h, maxInv_bringToFront s id h,
    maxInv_onWindowDragMove s id _ _ _ _ h, maxInv_windowDragCommit s id h,
    maxInv_onWindowResizeMove s id _ _ _ _ h, maxInv_onFolderDragMove s id _ _ _ _ h,
    maxInv_updateTaskbar s h, ?_⟩
  intro w hw hm
  exact h (id, w) (getA_mem hw) hm

/-- Claim C10, witnessed at `deskMax`. -/
theorem c10_maximized_has_saved_geometry_witness :
    MaxInv deskMax ∧ (getA "A" deskMax.windowPositions).isSome = true := by
  have hInv : MaxInv deskMax := by decide
  have hw : getA "A" deskMax.windows = some maxWin := by decide
  have hm : maxWin.maximized = true := by decide
  exact ⟨hInv,
    (c10_maximized_has_saved_geometry deskMax "A" 0 0 0 0 0 0 hInv).2.2.2.2.2.2.2.2.2.2
      maxWin hw hm⟩
